import Mathlib

/-!
# Verification of the task prioritization scoring engine

Shallow embedding of `calculate_task_score` from
`src/sales_operator_app/services/task_service.py` (lines 132-203) together
with the configuration constants it reads from
`src/sales_operator_app/utils/config.py`.

Modelling conventions:
* A task record is a total mapping `String → PyVal`; an absent key is the
  value `PyVal.none` (Python's `dict.get` returns `None` for missing keys,
  and every access in the scorer goes through `task.get`).
* Python numbers are embedded as exact rationals `ℚ`; the scorer's
  arithmetic (weights 0.2/0.4, divisions by 7 and 10) is modelled exactly.
* Naive datetimes are embedded as integer seconds since 1970-01-01 00:00:00
  (second granularity; `datetime.datetime.now()` becomes a parameter `now`).
* Python control flow that can raise is embedded in `Except PyErr`; the one
  reachable exception in the scorer is the `AttributeError` raised by
  `(x or "").upper()` / `(x or "").lower()` when `x` is a truthy non-string.
-/

namespace SalesOperator

attribute [local semireducible] Rat.add Rat.sub Rat.mul Rat.inv

deriving instance DecidableEq for Except

/-- A Python value that can occupy a field of a task record: SQL `NULL` /
missing key (`none`), strings, ints, floats (as exact rationals) and native
`datetime.datetime` objects (as seconds since the epoch). -/
inductive PyVal where
  | none
  | str (s : String)
  | int (n : Int)
  | float (q : ℚ)
  | datetime (t : Int)
  deriving DecidableEq

/-- Python truthiness of a `PyVal`: `None`, `""`, `0` and `0.0` are falsy;
`datetime` objects are always truthy. -/
def PyVal.truthy : PyVal → Bool
  | .none => false
  | .str s => !s.isEmpty
  | .int n => n != 0
  | .float q => q != 0
  | .datetime _ => true

/-- The value of a decimal digit character, `none` for non-digits. -/
def digitVal (c : Char) : Option Nat :=
  if c.isDigit then some (c.toNat - 48) else Option.none

/-- Two decimal digit characters as a number in `0..99`. -/
def twoDigits (a b : Char) : Option Nat := do
  let x ← digitVal a
  let y ← digitVal b
  pure (10 * x + y)

/-- Four decimal digit characters as a number in `0..9999`. -/
def fourDigits (a b c d : Char) : Option Nat := do
  let x ← twoDigits a b
  let y ← twoDigits c d
  pure (100 * x + y)

/-- Gregorian leap-year test. -/
def isLeap (y : Nat) : Bool := (y % 4 == 0 && y % 100 != 0) || y % 400 == 0

/-- Number of days in month `m` of year `y`. -/
def daysInMonth (y m : Nat) : Nat :=
  if m == 2 then (if isLeap y then 29 else 28)
  else if m == 4 || m == 6 || m == 9 || m == 11 then 30
  else 31

/-- Days from 1970-01-01 to the civil date `y-m-d` (Hinnant's
days-from-civil algorithm, valid for `1 ≤ y`). -/
def daysFromCivil (y m d : Nat) : Int :=
  let y2 := if m ≤ 2 then y - 1 else y
  let era := y2 / 400
  let yoe := y2 % 400
  let doy := (153 * (if 2 < m then m - 3 else m + 9) + 2) / 5 + (d - 1)
  let doe := yoe * 365 + yoe / 4 - yoe / 100 + doy
  ((era * 146097 + doe : Nat) : Int) - 719468

/-- Seconds since 1970-01-01 00:00:00 of the naive datetime
`y-m-d hh:mm:ss`. -/
def timestampOf (y m d hh mm ss : Nat) : Int :=
  86400 * daysFromCivil y m d + ((3600 * hh + 60 * mm + ss : Nat) : Int)

/-- Modelled stdlib: `datetime.datetime.fromisoformat`, restricted to the two
date-string shapes the repository stores and the spec names (`YYYY-MM-DD`
and `YYYY-MM-DD HH:MM:SS`, with a space or `T` separator), returning a naive
timestamp in seconds since the epoch.  Any other string — including
offset-suffixed forms, which fall outside the repository's declared formats —
is treated as unparseable. -/
def pyFromIso (s : String) : Option Int :=
  match s.toList with
  | [a, b, c, d, '-', e, f, '-', g, h] => do
    let y ← fourDigits a b c d
    let mo ← twoDigits e f
    let da ← twoDigits g h
    if 1 ≤ y ∧ 1 ≤ mo ∧ mo ≤ 12 ∧ 1 ≤ da ∧ da ≤ daysInMonth y mo then
      pure (timestampOf y mo da 0 0 0)
    else Option.none
  | [a, b, c, d, '-', e, f, '-', g, h, sep, p, q, ':', r, t, ':', u, w] => do
    if sep = ' ' ∨ sep = 'T' then
      let y ← fourDigits a b c d
      let mo ← twoDigits e f
      let da ← twoDigits g h
      let hh ← twoDigits p q
      let mi ← twoDigits r t
      let ss ← twoDigits u w
      if 1 ≤ y ∧ 1 ≤ mo ∧ mo ≤ 12 ∧ 1 ≤ da ∧ da ≤ daysInMonth y mo ∧
          hh ≤ 23 ∧ mi ≤ 59 ∧ ss ≤ 59 then
        pure (timestampOf y mo da hh mi ss)
      else Option.none
    else Option.none
  | _ => Option.none

/-- task_service.py lines 141-149, the `parse_date` helper.  `date_only` is
`False` at every call site inside `calculate_task_score`, so only the
`fromisoformat` branch is embedded.  A falsy value returns `None`; a
non-string value makes `fromisoformat` raise `TypeError`, which the
`except Exception` clause turns into `None`. -/
def parse_date (v : PyVal) : Option Int :=
  if v.truthy then
    match v with
    | .str s => pyFromIso s
    | _ => Option.none
  else Option.none

/-- Modelled stdlib: `datetime.timedelta.days` — floor division of the difference in seconds
by 86400 (Python's `//` floors toward negative infinity). -/
def timedeltaDays (sec : Int) : Int := Int.fdiv sec 86400

/-- config.py line 20: `MAX_TASK_SCORE = 100`. -/
def MAX_TASK_SCORE : ℚ := 100

/-- config.py line 21: `MIN_TASK_SCORE = 0`. -/
def MIN_TASK_SCORE : ℚ := 0

/-- config.py line 28: `TIER_WEIGHTS = {'A': 3, 'B': 2, 'C': 1}`. -/
def TIER_WEIGHTS : List (String × ℚ) := [("A", 3), ("B", 2), ("C", 1)]

/-- Dict access `TIER_WEIGHTS.get(tier, 0)` (task_service.py line 183). -/
def tierGet (tier : String) : ℚ :=
  (((TIER_WEIGHTS.find? fun p => p.1 == tier).map Prod.snd).getD 0)

/-- The value `max(TIER_WEIGHTS.values())` (task_service.py line 184). -/
def maxTierWeight : ℚ :=
  match TIER_WEIGHTS.map Prod.snd with
  | [] => 0
  | x :: xs => xs.foldl max x

/-- config.py lines 29-34: `TASK_SCORE_WEIGHTS`. -/
def TASK_SCORE_WEIGHTS : List (String × ℚ) :=
  [("revenue", 1/5), ("tier", 1/5), ("days_open", 2/5), ("next_followup", 1/5)]

/-- Dict access `TASK_SCORE_WEIGHTS[k]`; every key the scorer reads is present, so the
0 default of this lookup is never hit. -/
def weightGet (k : String) : ℚ :=
  (((TASK_SCORE_WEIGHTS.find? fun p => p.1 == k).map Prod.snd).getD 0)

/-- config.py line 35: `DEFAULT_FOLLOWUP_DAYS = 3`. -/
def DEFAULT_FOLLOWUP_DAYS : Int := 3

/-- The one exception reachable inside `calculate_task_score`:
`AttributeError` from calling `.upper()` / `.lower()` on a truthy
non-string field value. -/
inductive PyErr where
  | attributeError
  deriving DecidableEq

/-- Modelled stdlib: `str.upper` (ASCII, which covers every string the
scorer compares against). -/
def pyUpperStr (s : String) : String := String.mk (s.toList.map Char.toUpper)

/-- Modelled stdlib: `str.lower` (ASCII). -/
def pyLowerStr (s : String) : String := String.mk (s.toList.map Char.toLower)

/-- The expression `(v or "").upper()` (task_service.py line 182): a falsy value is
replaced by `""`; a truthy non-string raises `AttributeError`. -/
def pyUpperOrEmpty (v : PyVal) : Except PyErr String :=
  match (if v.truthy then v else PyVal.str "") with
  | .str s => .ok (pyUpperStr s)
  | _ => .error .attributeError

/-- The expression `(v or "").lower()` (task_service.py line 198). -/
def pyLowerOrEmpty (v : PyVal) : Except PyErr String :=
  match (if v.truthy then v else PyVal.str "") with
  | .str s => .ok (pyLowerStr s)
  | _ => .error .attributeError

/-- task_service.py lines 154-163: days since the last action, taken from
`last_action_date`, falling back to `created_at`, else 0; floored at 0. -/
def days_since_last (now : Int) (task : String → PyVal) : Int :=
  let d :=
    match parse_date (task "last_action_date") with
    | some t => timedeltaDays (now - t)
    | Option.none =>
      match parse_date (task "created_at") with
      | some t => timedeltaDays (now - t)
      | Option.none => 0
  max 0 d

/-- task_service.py lines 164-165: staleness factor, normalized by
`min(days, 10) / 10` and scaled by `MAX_TASK_SCORE * weights["days_open"]`. -/
def last_action_score (now : Int) (task : String → PyVal) : ℚ :=
  ((min (days_since_last now task) 10 : Int) : ℚ) / 10 *
    (MAX_TASK_SCORE * weightGet "days_open")

/-- task_service.py line 168: the parsed `next_followup_date`. -/
def next_followup_of (task : String → PyVal) : Option Int :=
  parse_date (task "next_followup_date")

/-- task_service.py lines 169-172: days until the next follow-up, or the
configured default when no follow-up date parses. -/
def days_until_followup (now : Int) (task : String → PyVal) : Int :=
  match next_followup_of task with
  | some t => timedeltaDays (t - now)
  | Option.none => DEFAULT_FOLLOWUP_DAYS

/-- task_service.py lines 173-179: follow-up urgency factor — saturated at
full weight when overdue, otherwise decaying linearly to 0 at 7 days. -/
def followup_score (now : Int) (task : String → PyVal) : ℚ :=
  let du := days_until_followup now task
  if du < 0 then MAX_TASK_SCORE * weightGet "next_followup"
  else
    max 0 ((MAX_TASK_SCORE * weightGet "next_followup") -
      ((min du 7 : Int) : ℚ) * (MAX_TASK_SCORE * weightGet "next_followup" / 7))

/-- task_service.py lines 183-184: tier factor of the uppercased tier
string, normalized by the maximum configured tier weight. -/
def tier_score (tier : String) : ℚ :=
  tierGet tier / maxTierWeight * (MAX_TASK_SCORE * weightGet "tier")

/-- Modelled stdlib: the digits of a decimal-literal chunk as a number;
fails on the empty chunk or any non-digit. -/
def digitsToNat (l : List Char) : Option Nat :=
  if l.isEmpty then Option.none
  else l.foldl (fun acc c => acc.bind fun a => (digitVal c).map fun d => 10 * a + d)
    (some 0)

/-- Split a character list at the first `'.'`, keeping the remainder (which
may itself contain further dots, making the literal invalid). -/
def splitDot : List Char → List Char × Option (List Char)
  | [] => ([], Option.none)
  | '.' :: rest => ([], some rest)
  | c :: rest =>
    let p := splitDot rest
    (c :: p.1, p.2)

/-- Modelled stdlib: `float(s)` for a string, restricted to optionally
signed decimal literals (`"12"`, `"-3.5"`, `"+.25"`, `"7."`) with
surrounding spaces stripped; exponent forms, `inf`/`nan` and underscore
separators are treated as unparseable. -/
def pyFloatStr (s : String) : Option ℚ :=
  let l := ((s.toList.dropWhile (· = ' ')).reverse.dropWhile (· = ' ')).reverse
  let signed : Bool × List Char :=
    match l with
    | '-' :: rest => (true, rest)
    | '+' :: rest => (false, rest)
    | _ => (false, l)
  let neg := signed.1
  let mag : Option ℚ :=
    match splitDot signed.2 with
    | (ip, Option.none) => (digitsToNat ip).map fun n => (n : ℚ)
    | (ip, some fp) =>
      if fp.any (· = '.') then Option.none
      else if ip.isEmpty ∧ fp.isEmpty then Option.none
      else
        let ipn := if ip.isEmpty then some 0 else digitsToNat ip
        let fpn := if fp.isEmpty then some 0 else digitsToNat fp
        match ipn, fpn with
        | some a, some b => some ((a : ℚ) + (b : ℚ) / ((10 : ℚ) ^ fp.length))
        | _, _ => Option.none
  mag.map fun q => if neg then -q else q

/-- task_service.py lines 187-190:
`revenue = float(task.get("potential_revenue") or 0)` with every exception
(non-numeric string, non-numeric object) collapsing to `0`. -/
def revenueOf (v : PyVal) : ℚ :=
  match (if v.truthy then v else PyVal.int 0) with
  | .int n => (n : ℚ)
  | .float q => q
  | .str s => (pyFloatStr s).getD 0
  | _ => 0

/-- task_service.py lines 192-195: revenue factor, normalized against the
fixed 50,000 ceiling via `min(revenue / 50000, 1.0)`. -/
def revenue_score (v : PyVal) : ℚ :=
  min (revenueOf v / 50000) 1 * (MAX_TASK_SCORE * weightGet "revenue")

/-- task_service.py line 199:
`status == "waiting" and next_followup and next_followup > now`. -/
def waiting_override (now : Int) (status : String) (nf : Option Int) : Bool :=
  status == "waiting" &&
    match nf with
    | some t => decide (now < t)
    | Option.none => false

/-- task_service.py line 203: the final clamp
`max(MIN_TASK_SCORE, min(MAX_TASK_SCORE, total))`. -/
def clampScore (q : ℚ) : ℚ := max MIN_TASK_SCORE (min MAX_TASK_SCORE q)

/-- task_service.py lines 132-203, `calculate_task_score`: the four factor
scores in source order, the first reachable exception site at the tier
lookup (line 182), the second at the status lookup (line 198), the waiting
override (lines 197-200), and the clamped sum (lines 202-203). -/
def calculate_task_score (now : Int) (task : String → PyVal) : Except PyErr ℚ :=
  let las := last_action_score now task
  let fs := followup_score now task
  match pyUpperOrEmpty (task "customer_tier") with
  | .error e => .error e
  | .ok tier =>
    let ts := tier_score tier
    let rs := revenue_score (task "potential_revenue")
    match pyLowerOrEmpty (task "status") with
    | .error e => .error e
    | .ok status =>
      if waiting_override now status (next_followup_of task) then
        .ok MIN_TASK_SCORE
      else
        .ok (clampScore (las + fs + ts + rs))

/-- Pointwise update of a task mapping at a single key. -/
def updField (task : String → PyVal) (k : String) (v : PyVal) : String → PyVal :=
  fun k2 => if k2 = k then v else task k2

/-- The task record with every field absent. -/
def emptyTask : String → PyVal := fun _ => PyVal.none

/-- The six fields `calculate_task_score` reads. -/
def scoreKeys : List String :=
  ["status", "customer_tier", "potential_revenue",
   "last_action_date", "created_at", "next_followup_date"]

/-- The three date fields, each read only through `parse_date`. -/
def dateKeys : List String :=
  ["last_action_date", "created_at", "next_followup_date"]

/-- Field values that are either absent or strings — the shapes the two
`.upper()` / `.lower()` call sites never raise on. -/
def noneOrStr : PyVal → Bool
  | .none => true
  | .str _ => true
  | _ => false

/-! ### Concrete tasks used in witnesses and counterexamples -/

/-- A concrete task over the six schema fields plus an extra `"id"` field. -/
def witnessTaskA : String → PyVal :=
  updField (updField (updField emptyTask "customer_tier" (PyVal.str "B"))
    "potential_revenue" (PyVal.int 10000)) "id" (PyVal.int 1)

/-- The same task with a different extra `"id"` field. -/
def witnessTaskB : String → PyVal :=
  updField (updField (updField emptyTask "customer_tier" (PyVal.str "B"))
    "potential_revenue" (PyVal.int 10000)) "id" (PyVal.int 2)

/-- The spec's waiting-override scenario: status `"Waiting"`, follow-up five
days in the future, tier `A`, revenue 1,000,000. -/
def waitingTask : String → PyVal :=
  updField (updField (updField (updField emptyTask
    "status" (PyVal.str "Waiting"))
    "next_followup_date" (PyVal.str "2024-01-16"))
    "customer_tier" (PyVal.str "A"))
    "potential_revenue" (PyVal.int 1000000)

/-- A task whose `customer_tier` holds a truthy integer. -/
def intTierTask : String → PyVal :=
  updField emptyTask "customer_tier" (PyVal.int 7)

/-- A task with malformed values in every field the scorer tolerates:
a non-string `last_action_date`, an unparseable `created_at` string, a float
`next_followup_date` and a non-numeric `potential_revenue` string. -/
def junkTask : String → PyVal :=
  updField (updField (updField (updField (updField emptyTask
    "last_action_date" (PyVal.int 5))
    "created_at" (PyVal.str "not-a-date"))
    "next_followup_date" (PyVal.float (3/2)))
    "potential_revenue" (PyVal.str "lots"))
    "status" (PyVal.str "open")

/-- A task with a hugely negative `potential_revenue`. -/
def negRevTask : String → PyVal :=
  updField emptyTask "potential_revenue" (PyVal.int (-100000000))

/-- A task one day overdue as of 2024-01-11. -/
def overdueTask1 : String → PyVal :=
  updField emptyTask "next_followup_date" (PyVal.str "2024-01-10")

/-- A task one hundred days overdue as of 2024-01-11. -/
def overdueTask2 : String → PyVal :=
  updField emptyTask "next_followup_date" (PyVal.str "2023-10-03")

/-! ## Generic lemmas about the embedding -/

theorem pyUpperOrEmpty_str (s : String) :
    pyUpperOrEmpty (PyVal.str s) = .ok (pyUpperStr s) := by
  simp only [pyUpperOrEmpty, PyVal.truthy]
  by_cases h : s.isEmpty
  · rw [String.isEmpty_iff] at h
    subst h
    rfl
  · simp [h]

theorem pyLowerOrEmpty_str (s : String) :
    pyLowerOrEmpty (PyVal.str s) = .ok (pyLowerStr s) := by
  simp only [pyLowerOrEmpty, PyVal.truthy]
  by_cases h : s.isEmpty
  · rw [String.isEmpty_iff] at h
    subst h
    rfl
  · simp [h]

theorem pyUpperOrEmpty_ok {v : PyVal} (h : noneOrStr v = true) :
    ∃ s, pyUpperOrEmpty v = .ok s := by
  cases v with
  | none => exact ⟨_, rfl⟩
  | str s => exact ⟨_, pyUpperOrEmpty_str s⟩
  | int n => simp [noneOrStr] at h
  | float q => simp [noneOrStr] at h
  | datetime t => simp [noneOrStr] at h

theorem pyLowerOrEmpty_ok {v : PyVal} (h : noneOrStr v = true) :
    ∃ s, pyLowerOrEmpty v = .ok s := by
  cases v with
  | none => exact ⟨_, rfl⟩
  | str s => exact ⟨_, pyLowerOrEmpty_str s⟩
  | int n => simp [noneOrStr] at h
  | float q => simp [noneOrStr] at h
  | datetime t => simp [noneOrStr] at h

/-- Evaluation of `calculate_task_score` once the two string lookups
succeed. -/
theorem calc_score_ok (now : Int) (task : String → PyVal) (tier status : String)
    (ht : pyUpperOrEmpty (task "customer_tier") = .ok tier)
    (hs : pyLowerOrEmpty (task "status") = .ok status) :
    calculate_task_score now task =
      if waiting_override now status (next_followup_of task) then .ok MIN_TASK_SCORE
      else
        .ok (clampScore (last_action_score now task + followup_score now task +
          tier_score tier + revenue_score (task "potential_revenue"))) := by
  simp only [calculate_task_score, ht, hs]

/-- The scorer reads its six inputs only through `parse_date`
(for the three date fields) and directly (for tier, revenue, status). -/
theorem calc_congr (now : Int) (t1 t2 : String → PyVal)
    (h1 : parse_date (t1 "last_action_date") = parse_date (t2 "last_action_date"))
    (h2 : parse_date (t1 "created_at") = parse_date (t2 "created_at"))
    (h3 : parse_date (t1 "next_followup_date") = parse_date (t2 "next_followup_date"))
    (h4 : t1 "customer_tier" = t2 "customer_tier")
    (h5 : t1 "potential_revenue" = t2 "potential_revenue")
    (h6 : t1 "status" = t2 "status") :
    calculate_task_score now t1 = calculate_task_score now t2 := by
  unfold calculate_task_score last_action_score days_since_last followup_score
    days_until_followup next_followup_of
  rw [h1, h2, h3, h4, h5, h6]

theorem clampScore_bounds (q : ℚ) :
    MIN_TASK_SCORE ≤ clampScore q ∧ clampScore q ≤ MAX_TASK_SCORE := by
  unfold clampScore
  refine ⟨le_max_left _ _, max_le ?_ (min_le_left _ _)⟩
  norm_num [MIN_TASK_SCORE, MAX_TASK_SCORE]

theorem clampScore_mono {a b : ℚ} (h : a ≤ b) : clampScore a ≤ clampScore b :=
  max_le_max (le_refl _) (min_le_min (le_refl _) h)

theorem weight_days_open : MAX_TASK_SCORE * weightGet "days_open" = 40 := by decide

theorem weight_next_followup : MAX_TASK_SCORE * weightGet "next_followup" = 20 := by
  decide

theorem weight_tier : MAX_TASK_SCORE * weightGet "tier" = 20 := by decide

theorem weight_revenue : MAX_TASK_SCORE * weightGet "revenue" = 20 := by decide

theorem updField_self (task : String → PyVal) (k : String) (v : PyVal) :
    updField task k v k = v := by
  simp [updField]

theorem updField_other (task : String → PyVal) (k : String) (v : PyVal)
    (k2 : String) (h : k2 ≠ k) : updField task k v k2 = task k2 := by
  simp [updField, h]

theorem days_since_last_nonneg (now : Int) (task : String → PyVal) :
    0 ≤ days_since_last now task := by
  simp only [days_since_last]
  exact le_max_left _ _

theorem las_bounds (now : Int) (task : String → PyVal) :
    0 ≤ last_action_score now task ∧ last_action_score now task ≤ 40 := by
  unfold last_action_score
  rw [weight_days_open]
  have h0 : (0:ℚ) ≤ ((min (days_since_last now task) 10 : Int) : ℚ) := by
    exact_mod_cast le_min (days_since_last_nonneg now task) (by norm_num)
  have h10 : ((min (days_since_last now task) 10 : Int) : ℚ) ≤ 10 := by
    exact_mod_cast min_le_right _ _
  constructor <;> linarith

theorem fs_bounds (now : Int) (task : String → PyVal) :
    0 ≤ followup_score now task ∧ followup_score now task ≤ 20 := by
  simp only [followup_score]
  rw [weight_next_followup]
  split
  · norm_num
  · rename_i h
    have hdu : (0:Int) ≤ days_until_followup now task := Int.not_lt.mp h
    have h0 : (0:ℚ) ≤ ((min (days_until_followup now task) 7 : Int) : ℚ) := by
      exact_mod_cast le_min hdu (by norm_num)
    refine ⟨le_max_left _ _, max_le (by norm_num) ?_⟩
    have := mul_nonneg h0 (by norm_num : (0:ℚ) ≤ 20 / 7)
    linarith

theorem rs_le (v : PyVal) : revenue_score v ≤ 20 := by
  unfold revenue_score
  rw [weight_revenue]
  have h1 : min (revenueOf v / 50000) 1 ≤ 1 := min_le_right _ _
  linarith

theorem rs_nonneg (v : PyVal) (h : 0 ≤ revenueOf v) : 0 ≤ revenue_score v := by
  unfold revenue_score
  rw [weight_revenue]
  have h1 : (0:ℚ) ≤ min (revenueOf v / 50000) 1 :=
    le_min (div_nonneg h (by norm_num)) (by norm_num)
  linarith

/-! ## The claims -/

/-- C1: whenever `calculate_task_score` returns (in particular on every
task with missing fields, unparseable date strings, non-numeric revenue or
an unknown tier), the returned score lies within
`[MIN_TASK_SCORE, MAX_TASK_SCORE]`, i.e. `0 ≤ score ≤ 100`. -/
theorem C1_score_within_bounds (now : Int) (task : String → PyVal) (v : ℚ)
    (h : calculate_task_score now task = .ok v) :
    MIN_TASK_SCORE ≤ v ∧ v ≤ MAX_TASK_SCORE := by
  cases ht : pyUpperOrEmpty (task "customer_tier") with
  | error e => simp [calculate_task_score, ht] at h
  | ok tier =>
    cases hs : pyLowerOrEmpty (task "status") with
    | error e => simp [calculate_task_score, ht, hs] at h
    | ok status =>
      rw [calc_score_ok now task tier status ht hs] at h
      split at h
      · simp only [Except.ok.injEq] at h
        subst h
        exact ⟨le_refl _, by norm_num [MIN_TASK_SCORE, MAX_TASK_SCORE]⟩
      · simp only [Except.ok.injEq] at h
        subst h
        exact clampScore_bounds _

/-- Witness for C1 at the all-fields-absent task. -/
theorem C1_witness :
    MIN_TASK_SCORE ≤ (80/7 : ℚ) ∧ (80/7 : ℚ) ≤ MAX_TASK_SCORE :=
  C1_score_within_bounds 0 emptyTask (80/7) (by decide)

/-- C10: the score is a deterministic function of the six schema fields and
the current time — two task mappings agreeing on those six fields (any
additional fields arbitrary) score identically at the same `now`. -/
theorem C10_deterministic (now : Int) (t1 t2 : String → PyVal)
    (h : ∀ k ∈ scoreKeys, t1 k = t2 k) :
    calculate_task_score now t1 = calculate_task_score now t2 := by
  have h1 := h "last_action_date" (by simp [scoreKeys])
  have h2 := h "created_at" (by simp [scoreKeys])
  have h3 := h "next_followup_date" (by simp [scoreKeys])
  have h4 := h "customer_tier" (by simp [scoreKeys])
  have h5 := h "potential_revenue" (by simp [scoreKeys])
  have h6 := h "status" (by simp [scoreKeys])
  exact calc_congr now t1 t2 (by rw [h1]) (by rw [h2]) (by rw [h3]) h4 h5 h6

/-- Witness for C10: the extra `"id"` field is ignored. -/
theorem C10_witness :
    calculate_task_score 5 witnessTaskA = calculate_task_score 5 witnessTaskB :=
  C10_deterministic 5 witnessTaskA witnessTaskB
    (by intro k hk; fin_cases hk <;> rfl)

/-- C3: a task whose status is `"waiting"` up to case, with a parsed
`next_followup_date` strictly in the future, scores `MIN_TASK_SCORE`
regardless of the four factors (any tier that does not raise, any revenue,
any staleness, any follow-up urgency). -/
theorem C3_waiting_override (now : Int) (task : String → PyVal) (s : String)
    (tf : Int)
    (htier : noneOrStr (task "customer_tier") = true)
    (hst : task "status" = PyVal.str s)
    (hw : pyLowerStr s = "waiting")
    (hnf : parse_date (task "next_followup_date") = some tf)
    (hfut : now < tf) :
    calculate_task_score now task = .ok MIN_TASK_SCORE := by
  obtain ⟨tier, ht⟩ := pyUpperOrEmpty_ok htier
  have hs : pyLowerOrEmpty (task "status") = .ok "waiting" := by
    rw [hst, pyLowerOrEmpty_str, hw]
  rw [calc_score_ok now task tier "waiting" ht hs]
  have hov : waiting_override now "waiting" (next_followup_of task) = true := by
    unfold waiting_override next_followup_of
    rw [hnf]
    simp [hfut]
  rw [hov]
  simp

/-- Witness for C3 at the spec's waiting-override scenario. -/
theorem C3_witness :
    calculate_task_score (timestampOf 2024 1 11 0 0 0) waitingTask =
      .ok MIN_TASK_SCORE :=
  C3_waiting_override (timestampOf 2024 1 11 0 0 0) waitingTask "Waiting"
    (timestampOf 2024 1 16 0 0 0)
    (by decide) (by decide) (by decide) (by decide) (by decide)

/-- Counterexample to C2: `calculate_task_score` is not total over malformed
values of arbitrary shape — a task whose `customer_tier` holds a truthy
integer makes `(task.get("customer_tier") or "").upper()` raise
`AttributeError` (the model's error value), so no numeric result is
returned. -/
theorem C2_counterexample :
    calculate_task_score 0 intTierTask = .error PyErr.attributeError := by decide

/-- C2 as amended: the scorer is total on every task whose `status` and
`customer_tier` fields are each absent or strings; the date and revenue
fields may hold arbitrarily malformed values (non-string dates, unparseable
date strings, non-numeric revenue of any shape), each falling back to its
zero-contribution/default path without raising. -/
theorem C2_amended_total (now : Int) (task : String → PyVal)
    (h1 : noneOrStr (task "customer_tier") = true)
    (h2 : noneOrStr (task "status") = true) :
    ∃ v, calculate_task_score now task = .ok v := by
  obtain ⟨tier, ht⟩ := pyUpperOrEmpty_ok h1
  obtain ⟨st, hs⟩ := pyLowerOrEmpty_ok h2
  rw [calc_score_ok now task tier st ht hs]
  split
  · exact ⟨_, rfl⟩
  · exact ⟨_, rfl⟩

/-- Witness for C2 (amended) at a task with malformed optional fields. -/
theorem C2_witness : ∃ v, calculate_task_score 0 junkTask = .ok v :=
  C2_amended_total 0 junkTask (by decide) (by decide)

/-- Counterexample to C4: supplying `last_action_date` as a native datetime
does not score like the equivalent formatted string — ten days after
2024-01-01, the string form contributes full staleness while the native form
is treated as absent. -/
theorem C4_counterexample :
    ¬ calculate_task_score (timestampOf 2024 1 11 0 0 0)
        (updField emptyTask "last_action_date" (PyVal.str "2024-01-01")) =
      calculate_task_score (timestampOf 2024 1 11 0 0 0)
        (updField emptyTask "last_action_date"
          (PyVal.datetime (timestampOf 2024 1 1 0 0 0))) := by decide

/-- C4 as amended: formatted strings are parsed, but a native date/time
value is not accepted — `fromisoformat` raises `TypeError` on non-strings,
`parse_date` swallows it, and the native value in any of the three date
fields behaves exactly as an absent field. -/
theorem C4_native_date_absent (now : Int) (task : String → PyVal) (k : String)
    (hk : k ∈ dateKeys) (t : Int) :
    calculate_task_score now (updField task k (PyVal.datetime t)) =
      calculate_task_score now (updField task k PyVal.none) := by
  apply calc_congr <;> fin_cases hk <;>
    simp [updField, parse_date, PyVal.truthy]

/-- Witness for C4 (amended) at `created_at`. -/
theorem C4_witness :
    calculate_task_score 0 (updField emptyTask "created_at"
        (PyVal.datetime 86400)) =
      calculate_task_score 0 (updField emptyTask "created_at" PyVal.none) :=
  C4_native_date_absent 0 emptyTask "created_at" (by decide) 86400

/-- Counterexample to C5: revenue is not coerced to a non-negative number —
a `potential_revenue` of -50,000 produces a revenue-factor contribution of
-20, which is negative. -/
theorem C5_counterexample :
    revenue_score (PyVal.int (-50000)) = -20 ∧
      ¬ 0 ≤ revenue_score (PyVal.int (-50000)) := by decide

/-- C5 as amended: a missing revenue and a non-numeric revenue string are
coerced to 0, and the revenue contribution is non-negative whenever the
coerced revenue is non-negative; a negative numeric value, however, is used
as-is (the counterexample shows a negative contribution). -/
theorem C5_amended_nonneg :
    revenueOf PyVal.none = 0 ∧
    (∀ s : String, pyFloatStr s = Option.none → revenueOf (PyVal.str s) = 0) ∧
    (∀ v : PyVal, 0 ≤ revenueOf v → 0 ≤ revenue_score v) := by
  refine ⟨by decide, ?_, fun v h => rs_nonneg v h⟩
  intro s h
  unfold revenueOf
  by_cases he : (PyVal.str s).truthy
  · simp [he, h]
  · simp [he]

/-- Witness for C5 (amended): a non-numeric string coerces to 0 and a
positive revenue contributes non-negatively. -/
theorem C5_witness :
    revenueOf (PyVal.str "lots") = 0 ∧ 0 ≤ revenue_score (PyVal.int 12345) :=
  ⟨C5_amended_nonneg.2.1 "lots" (by decide),
   C5_amended_nonneg.2.2 (PyVal.int 12345) (by decide)⟩

/-! ## Congruence and evaluation helpers for the factor scores -/

theorem las_of_parsed (now : Int) (task : String → PyVal) (t : Int)
    (h : parse_date (task "last_action_date") = some t) :
    last_action_score now task =
      ((min (max 0 (timedeltaDays (now - t))) 10 : Int) : ℚ) / 10 * 40 := by
  simp only [last_action_score, days_since_last, h, weight_days_open]

theorem las_congr (now : Int) (t1 t2 : String → PyVal)
    (h1 : parse_date (t1 "last_action_date") = parse_date (t2 "last_action_date"))
    (h2 : parse_date (t1 "created_at") = parse_date (t2 "created_at")) :
    last_action_score now t1 = last_action_score now t2 := by
  unfold last_action_score days_since_last
  rw [h1, h2]

theorem followup_score_congr (now : Int) (t1 t2 : String → PyVal)
    (h : parse_date (t1 "next_followup_date") = parse_date (t2 "next_followup_date")) :
    followup_score now t1 = followup_score now t2 := by
  unfold followup_score days_until_followup next_followup_of
  rw [h]

theorem followup_score_overdue (now : Int) (task : String → PyVal) (tf : Int)
    (h : next_followup_of task = some tf) (hlt : tf < now) :
    followup_score now task = MAX_TASK_SCORE * weightGet "next_followup" := by
  have hdu : days_until_followup now task < 0 := by
    simp only [days_until_followup, h, timedeltaDays]
    exact Int.fdiv_neg' (by omega) (by norm_num)
  simp only [followup_score]
  rw [if_pos hdu]

theorem rs_mono {v1 v2 : PyVal} (h : revenueOf v1 ≤ revenueOf v2) :
    revenue_score v1 ≤ revenue_score v2 := by
  unfold revenue_score
  rw [weight_revenue]
  have hm : min (revenueOf v1 / 50000) 1 ≤ min (revenueOf v2 / 50000) 1 :=
    min_le_min (by linarith) (le_refl 1)
  linarith

theorem maxTierWeight_eq : maxTierWeight = 3 := by decide

theorem tier_score_A : tier_score "A" = 20 := by decide

theorem tier_score_B : tier_score "B" = 40/3 := by decide

theorem tier_score_C : tier_score "C" = 20/3 := by decide

theorem tier_score_unknown (t : String) (h : tierGet t = 0) : tier_score t = 0 := by
  unfold tier_score
  rw [h, maxTierWeight_eq, weight_tier]
  norm_num

theorem clampScore_id {q : ℚ} (h0 : 0 ≤ q) (h100 : q ≤ 100) : clampScore q = q := by
  unfold clampScore
  simp only [MIN_TASK_SCORE, MAX_TASK_SCORE]
  rw [min_eq_right h100, max_eq_right h0]

/-- Score of a task after updating a single field other than tier, status
and follow-up date, when the two string lookups succeed on the base task
and the waiting override does not fire. -/
theorem calc_score_upd_no_override (now : Int) (task : String → PyVal)
    (k : String) (v : PyVal) (tier st : String)
    (hk1 : k ≠ "customer_tier") (hk2 : k ≠ "status")
    (hk3 : k ≠ "next_followup_date")
    (ht : pyUpperOrEmpty (task "customer_tier") = .ok tier)
    (hs : pyLowerOrEmpty (task "status") = .ok st)
    (hov : waiting_override now st (parse_date (task "next_followup_date")) = false) :
    calculate_task_score now (updField task k v) =
      .ok (clampScore (last_action_score now (updField task k v) +
        followup_score now (updField task k v) + tier_score tier +
        revenue_score (updField task k v "potential_revenue"))) := by
  have ht2 : pyUpperOrEmpty (updField task k v "customer_tier") = .ok tier := by
    rw [updField_other _ _ _ _ (Ne.symm hk1)]
    exact ht
  have hs2 : pyLowerOrEmpty (updField task k v "status") = .ok st := by
    rw [updField_other _ _ _ _ (Ne.symm hk2)]
    exact hs
  rw [calc_score_ok now _ tier st ht2 hs2]
  have hnf : next_followup_of (updField task k v) =
      parse_date (task "next_followup_date") := by
    unfold next_followup_of
    rw [updField_other _ _ _ _ (Ne.symm hk3)]
  rw [hnf, hov]
  simp

/-- C6: holding every other field fixed, with the status string not
triggering the waiting override, the score is monotone non-decreasing in
the days elapsed since `last_action_date` (for elapsed values 0 through
15), and the staleness effect saturates at 10 days: a task 10 days stale
scores exactly the same as one 20 days stale. -/
theorem C6_staleness_monotone (now : Int) (task : String → PyVal)
    (v1 v2 : PyVal) (t1 t2 : Int) (st : String) (w1 w2 : ℚ)
    (hp1 : parse_date v1 = some t1) (hp2 : parse_date v2 = some t2)
    (hst : pyLowerOrEmpty (task "status") = .ok st)
    (hov : waiting_override now st (parse_date (task "next_followup_date")) = false)
    (h1 : calculate_task_score now (updField task "last_action_date" v1) = .ok w1)
    (h2 : calculate_task_score now (updField task "last_action_date" v2) = .ok w2) :
    (0 ≤ timedeltaDays (now - t1) →
        timedeltaDays (now - t1) ≤ timedeltaDays (now - t2) →
        timedeltaDays (now - t2) ≤ 15 → w1 ≤ w2) ∧
    (timedeltaDays (now - t1) = 10 → timedeltaDays (now - t2) = 20 → w1 = w2) := by
  cases ht : pyUpperOrEmpty (task "customer_tier") with
  | error e =>
    exfalso
    have hx : calculate_task_score now (updField task "last_action_date" v1) =
        .error e := by
      unfold calculate_task_score
      rw [updField_other _ _ _ _ (by decide), ht]
    rw [hx] at h1
    exact Except.noConfusion h1
  | ok tier =>
    have key : ∀ v : PyVal, ∀ t : Int, parse_date v = some t →
        calculate_task_score now (updField task "last_action_date" v) =
        .ok (clampScore
          (((min (max 0 (timedeltaDays (now - t))) 10 : Int) : ℚ) / 10 * 40 +
            followup_score now task + tier_score tier +
            revenue_score (task "potential_revenue"))) := by
      intro v t hp
      rw [calc_score_upd_no_override now task "last_action_date" v tier st
        (by decide) (by decide) (by decide) ht hst hov]
      have hlas : last_action_score now (updField task "last_action_date" v) =
          ((min (max 0 (timedeltaDays (now - t))) 10 : Int) : ℚ) / 10 * 40 := by
        apply las_of_parsed
        rw [updField_self]
        exact hp
      have hfs : followup_score now (updField task "last_action_date" v) =
          followup_score now task :=
        followup_score_congr now _ _ (by rw [updField_other _ _ _ _ (by decide)])
      have hpr : updField task "last_action_date" v "potential_revenue" =
          task "potential_revenue" := updField_other _ _ _ _ (by decide)
      rw [hlas, hfs, hpr]
    rw [key v1 t1 hp1] at h1
    rw [key v2 t2 hp2] at h2
    simp only [Except.ok.injEq] at h1 h2
    subst h1
    subst h2
    constructor
    · intro hd0 hd12 hd15
      apply clampScore_mono
      have hmono : (min (max 0 (timedeltaDays (now - t1))) 10 : Int) ≤
          min (max 0 (timedeltaDays (now - t2))) 10 :=
        min_le_min (max_le_max (le_refl 0) hd12) (le_refl 10)
      have hq : ((min (max 0 (timedeltaDays (now - t1))) 10 : Int) : ℚ) ≤
          ((min (max 0 (timedeltaDays (now - t2))) 10 : Int) : ℚ) := by
        exact_mod_cast hmono
      linarith
    · intro hd1 hd2
      rw [hd1, hd2]
      have h1020 : (min (max 0 (10 : Int)) 10) = min (max 0 (20 : Int)) 10 := by
        decide
      rw [h1020]

/-- Witness for C6: at `now` = 2024-01-16 12:00, elapsed 2 days versus 6
days (scores 136/7 and 248/7), and elapsed 10 days versus 20 days (equal
scores). -/
theorem C6_witness : ((136 : ℚ)/7 ≤ 248/7) ∧ ((360 : ℚ)/7 = 360/7) :=
  ⟨(C6_staleness_monotone (timestampOf 2024 1 16 12 0 0) emptyTask
      (PyVal.str "2024-01-14") (PyVal.str "2024-01-10")
      (timestampOf 2024 1 14 0 0 0) (timestampOf 2024 1 10 0 0 0) "" (136/7) (248/7)
      (by decide) (by decide) (by decide) (by decide) (by decide) (by decide)).1
    (by decide) (by decide) (by decide),
   (C6_staleness_monotone (timestampOf 2024 1 16 12 0 0) emptyTask
      (PyVal.str "2024-01-06") (PyVal.str "2023-12-27")
      (timestampOf 2024 1 6 0 0 0) (timestampOf 2023 12 27 0 0 0) "" (360/7) (360/7)
      (by decide) (by decide) (by decide) (by decide) (by decide) (by decide)).2
    (by decide) (by decide)⟩

/-- C7: holding every other field fixed, with the status string not
triggering the waiting override, the score is monotone non-decreasing in
`potential_revenue` over [0, 50000], and every revenue strictly above
50,000 produces exactly the revenue contribution of 50,000. -/
theorem C7_revenue_monotone (now : Int) (task : String → PyVal)
    (v1 v2 : PyVal) (st : String) (w1 w2 : ℚ)
    (hst : pyLowerOrEmpty (task "status") = .ok st)
    (hov : waiting_override now st (parse_date (task "next_followup_date")) = false)
    (h1 : calculate_task_score now (updField task "potential_revenue" v1) = .ok w1)
    (h2 : calculate_task_score now (updField task "potential_revenue" v2) = .ok w2) :
    (0 ≤ revenueOf v1 → revenueOf v1 ≤ revenueOf v2 → revenueOf v2 ≤ 50000 →
        w1 ≤ w2) ∧
    (∀ v : PyVal, 50000 < revenueOf v →
        revenue_score v = revenue_score (PyVal.int 50000)) := by
  cases ht : pyUpperOrEmpty (task "customer_tier") with
  | error e =>
    exfalso
    have hx : calculate_task_score now (updField task "potential_revenue" v1) =
        .error e := by
      unfold calculate_task_score
      rw [updField_other _ _ _ _ (by decide), ht]
    rw [hx] at h1
    exact Except.noConfusion h1
  | ok tier =>
    have key : ∀ v : PyVal,
        calculate_task_score now (updField task "potential_revenue" v) =
        .ok (clampScore (last_action_score now task + followup_score now task +
          tier_score tier + revenue_score v)) := by
      intro v
      rw [calc_score_upd_no_override now task "potential_revenue" v tier st
        (by decide) (by decide) (by decide) ht hst hov]
      have hlas : last_action_score now (updField task "potential_revenue" v) =
          last_action_score now task :=
        las_congr now _ _ (by rw [updField_other _ _ _ _ (by decide)])
          (by rw [updField_other _ _ _ _ (by decide)])
      have hfs : followup_score now (updField task "potential_revenue" v) =
          followup_score now task :=
        followup_score_congr now _ _ (by rw [updField_other _ _ _ _ (by decide)])
      rw [hlas, hfs, updField_self]
    rw [key v1] at h1
    rw [key v2] at h2
    simp only [Except.ok.injEq] at h1 h2
    subst h1
    subst h2
    refine ⟨fun hr0 hr12 hr2 => clampScore_mono ?_, fun v hv => ?_⟩
    · have := rs_mono hr12
      linarith
    · unfold revenue_score
      have hge : (1:ℚ) ≤ revenueOf v / 50000 := by
        rw [le_div_iff₀ (by norm_num : (0:ℚ) < 50000)]
        linarith
      rw [min_eq_right hge]
      have h5 : revenueOf (PyVal.int 50000) = 50000 := by decide
      rw [h5]
      have h51 : (50000 : ℚ) / 50000 = 1 := by norm_num
      rw [h51, min_self]

/-- Witness for C7: revenue 10,000 versus 40,000 (scores 108/7 and 192/7),
and revenue 60,000 matching the contribution at exactly 50,000. -/
theorem C7_witness :
    ((108 : ℚ)/7 ≤ 192/7) ∧
      revenue_score (PyVal.int 60000) = revenue_score (PyVal.int 50000) := by
  have h := C7_revenue_monotone 0 emptyTask
    (PyVal.int 10000) (PyVal.int 40000) "" (108/7) (192/7)
    (by decide) (by decide) (by decide) (by decide)
  exact ⟨h.1 (by decide) (by decide) (by decide), h.2 (PyVal.int 60000) (by decide)⟩

/-- C8: any two tasks whose `next_followup_date` parses to a time strictly
in the past receive the same saturated follow-up contribution
`MAX_TASK_SCORE * weight("next_followup")` — one day overdue contributes
exactly as much as one hundred days overdue. -/
theorem C8_overdue_saturation (now : Int) (task1 task2 : String → PyVal)
    (tf1 tf2 : Int)
    (h1 : next_followup_of task1 = some tf1)
    (h2 : next_followup_of task2 = some tf2)
    (hp1 : tf1 < now) (hp2 : tf2 < now) :
    followup_score now task1 = MAX_TASK_SCORE * weightGet "next_followup" ∧
    followup_score now task2 = MAX_TASK_SCORE * weightGet "next_followup" ∧
    followup_score now task1 = followup_score now task2 := by
  have e1 := followup_score_overdue now task1 tf1 h1 hp1
  have e2 := followup_score_overdue now task2 tf2 h2 hp2
  exact ⟨e1, e2, e1.trans e2.symm⟩

/-- Witness for C8: one day overdue versus one hundred days overdue as of
2024-01-11. -/
theorem C8_witness :
    followup_score (timestampOf 2024 1 11 0 0 0) overdueTask1 =
      MAX_TASK_SCORE * weightGet "next_followup" ∧
    followup_score (timestampOf 2024 1 11 0 0 0) overdueTask2 =
      MAX_TASK_SCORE * weightGet "next_followup" ∧
    followup_score (timestampOf 2024 1 11 0 0 0) overdueTask1 =
      followup_score (timestampOf 2024 1 11 0 0 0) overdueTask2 :=
  C8_overdue_saturation (timestampOf 2024 1 11 0 0 0) overdueTask1 overdueTask2
    (timestampOf 2024 1 10 0 0 0) (timestampOf 2023 10 3 0 0 0)
    (by decide) (by decide) (by decide) (by decide)

/-- Counterexample to C9: with all other fields equal — here a hugely
negative `potential_revenue`, status absent — tiers `A` and `B` both clamp
to 0, so the tier scores are not strictly ordered. -/
theorem C9_counterexample :
    calculate_task_score 0 (updField negRevTask "customer_tier" (PyVal.str "A")) =
        .ok 0 ∧
    calculate_task_score 0 (updField negRevTask "customer_tier" (PyVal.str "B")) =
        .ok 0 := by
  decide

/-- C9 as amended: with the default configuration, all other fields equal,
the status not triggering the waiting override, and a non-negative coerced
revenue, the scores are strictly ordered by tier
(`A` > `B` > `C` > unknown), and tier lookup is case-insensitive
(`"a"` scores as `"A"`). -/
theorem C9_amended_tier_ordering (now : Int) (task : String → PyVal)
    (st u : String) (vA vB vC vU : ℚ)
    (hst : pyLowerOrEmpty (task "status") = .ok st)
    (hov : waiting_override now st (parse_date (task "next_followup_date")) = false)
    (hrev : 0 ≤ revenueOf (task "potential_revenue"))
    (hu : tierGet (pyUpperStr u) = 0)
    (hA : calculate_task_score now (updField task "customer_tier" (PyVal.str "A")) =
      .ok vA)
    (hB : calculate_task_score now (updField task "customer_tier" (PyVal.str "B")) =
      .ok vB)
    (hC : calculate_task_score now (updField task "customer_tier" (PyVal.str "C")) =
      .ok vC)
    (hU : calculate_task_score now (updField task "customer_tier" (PyVal.str u)) =
      .ok vU) :
    vB < vA ∧ vC < vB ∧ vU < vC ∧
      calculate_task_score now (updField task "customer_tier" (PyVal.str "a")) =
        calculate_task_score now (updField task "customer_tier" (PyVal.str "A")) := by
  have key : ∀ s : String,
      calculate_task_score now (updField task "customer_tier" (PyVal.str s)) =
      .ok (clampScore (last_action_score now task + followup_score now task +
        tier_score (pyUpperStr s) + revenue_score (task "potential_revenue"))) := by
    intro s
    have ht2 : pyUpperOrEmpty (updField task "customer_tier" (PyVal.str s)
        "customer_tier") = .ok (pyUpperStr s) := by
      rw [updField_self]
      exact pyUpperOrEmpty_str s
    have hs2 : pyLowerOrEmpty (updField task "customer_tier" (PyVal.str s)
        "status") = .ok st := by
      rw [updField_other _ _ _ _ (by decide)]
      exact hst
    rw [calc_score_ok now _ (pyUpperStr s) st ht2 hs2]
    have hnf : next_followup_of (updField task "customer_tier" (PyVal.str s)) =
        parse_date (task "next_followup_date") := by
      unfold next_followup_of
      rw [updField_other _ _ _ _ (by decide)]
    rw [hnf, hov]
    have hlas : last_action_score now (updField task "customer_tier" (PyVal.str s)) =
        last_action_score now task :=
      las_congr now _ _ (by rw [updField_other _ _ _ _ (by decide)])
        (by rw [updField_other _ _ _ _ (by decide)])
    have hfs : followup_score now (updField task "customer_tier" (PyVal.str s)) =
        followup_score now task :=
      followup_score_congr now _ _ (by rw [updField_other _ _ _ _ (by decide)])
    have hpr : updField task "customer_tier" (PyVal.str s) "potential_revenue" =
        task "potential_revenue" := updField_other _ _ _ _ (by decide)
    rw [hlas, hfs, hpr]
    simp
  have upA : pyUpperStr "A" = "A" := by decide
  have upB : pyUpperStr "B" = "B" := by decide
  have upC : pyUpperStr "C" = "C" := by decide
  have upa : pyUpperStr "a" = "A" := by decide
  have hA2 := key "A"
  have hB2 := key "B"
  have hC2 := key "C"
  have hU2 := key u
  rw [upA, tier_score_A] at hA2
  rw [upB, tier_score_B] at hB2
  rw [upC, tier_score_C] at hC2
  rw [tier_score_unknown _ hu] at hU2
  rw [hA2] at hA
  rw [hB2] at hB
  rw [hC2] at hC
  rw [hU2] at hU
  simp only [Except.ok.injEq] at hA hB hC hU
  subst hA
  subst hB
  subst hC
  subst hU
  have hl := las_bounds now task
  have hf := fs_bounds now task
  have hr1 := rs_nonneg _ hrev
  have hr2 := rs_le (task "potential_revenue")
  have cA := clampScore_id (q := last_action_score now task + followup_score now task
    + 20 + revenue_score (task "potential_revenue")) (by linarith) (by linarith)
  have cB := clampScore_id (q := last_action_score now task + followup_score now task
    + 40/3 + revenue_score (task "potential_revenue")) (by linarith) (by linarith)
  have cC := clampScore_id (q := last_action_score now task + followup_score now task
    + 20/3 + revenue_score (task "potential_revenue")) (by linarith) (by linarith)
  have cU := clampScore_id (q := last_action_score now task + followup_score now task
    + 0 + revenue_score (task "potential_revenue")) (by linarith) (by linarith)
  rw [cA, cB, cC, cU]
  refine ⟨by linarith, by linarith, by linarith, ?_⟩
  rw [key "a", key "A", upa, upA]

/-- Witness for C9 (amended) at the all-absent task with unknown tier
`"Z"`: the scores are 220/7, 520/21, 380/21 and 80/7. -/
theorem C9_witness :
    ((520 : ℚ)/21 < 220/7) ∧ ((380 : ℚ)/21 < 520/21) ∧ ((80 : ℚ)/7 < 380/21) ∧
      calculate_task_score 0 (updField emptyTask "customer_tier" (PyVal.str "a")) =
        calculate_task_score 0 (updField emptyTask "customer_tier" (PyVal.str "A")) :=
  C9_amended_tier_ordering 0 emptyTask "" "Z" (220/7) (520/21) (380/21) (80/7)
    (by decide) (by decide) (by decide) (by decide)
    (by decide) (by decide) (by decide) (by decide)

/-! ## Sanity checks of the embedded parsers and scorer -/

/-- The date-only format parses, consistently with the epoch-day count. -/
theorem pyFromIso_date : pyFromIso "2024-01-01" = some (86400 * 19723) := by decide

/-- The datetime format parses with both separators. -/
theorem pyFromIso_datetime :
    pyFromIso "2024-01-01 12:30:05" = some (86400 * 19723 + 45005) ∧
    pyFromIso "2024-01-01T12:30:05" = some (86400 * 19723 + 45005) := by decide

/-- Out-of-range dates and arbitrary text fail to parse. -/
theorem pyFromIso_invalid :
    pyFromIso "2024-02-30" = Option.none ∧ pyFromIso "garbage" = Option.none := by
  decide

/-- Decimal revenue strings parse with sign and fraction. -/
theorem pyFloatStr_decimal : pyFloatStr "-3.5" = some (-7/2) := by decide

/-- The all-fields-absent task scores 80/7: staleness 0, follow-up factor at
the default 3-day lookahead, tier and revenue 0. -/
theorem emptyTask_score : calculate_task_score 0 emptyTask = .ok (80/7) := by decide

end SalesOperator
